import Mathlib

/-!
Verification of the storefront backend (`main.py`): catalog serialization,
seeding, and the checkout pricing computation.

Numbers: Python floats are modelled as exact rationals (ℚ); Python's
`round(x, 2)` is modelled as decimal rounding to 2 fractional digits with
ties to even (`round2` below), which is the policy `round` implements on
the decimal values that occur here.

The document store (`database.py`, absent from the sources; the spec calls
it an external collaborator) is modelled as an explicit list of documents;
`create_document` calls are modelled as an explicit write log returned by
each operation.
-/

namespace Shopping

/-- A hexadecimal digit, by character code (0-9, a-f, A-F). -/
def isHexChar (c : Char) : Bool :=
  (48 ≤ c.toNat && c.toNat ≤ 57) || (97 ≤ c.toNat && c.toNat ≤ 102) ||
    (65 ≤ c.toNat && c.toNat ≤ 70)

/-- `bson.ObjectId(s)` succeeds on a string exactly when it is 24 hex
characters; otherwise it raises `bson.errors.InvalidId`. -/
def isValidObjectId (s : String) : Bool :=
  s.length = 24 && s.toList.all isHexChar

/-- Round a rational to the nearest integer, ties to even (the rounding of
Python's built-in `round`). -/
def roundHalfEven (q : ℚ) : ℤ :=
  let f : ℤ := ⌊q⌋
  if q - f < 1 / 2 then f
  else if 1 / 2 < q - f then f + 1
  else if 2 ∣ f then f else f + 1

/-- Python's `round(x, 2)`: round to 2 fractional decimal digits. -/
def round2 (q : ℚ) : ℚ :=
  (roundHalfEven (q * 100) : ℚ) / 100

/-- A document of the `product` collection as stored: `_id` rendered via
`str` as `oid`; every other field may be absent (`none`). -/
structure StoredDoc where
  oid : String
  title : Option String := none
  description : Option String := none
  price : Option ℚ := none
  category : Option String := none
  image : Option String := none
  in_stock : Option Bool := none
deriving DecidableEq

/-- The pydantic `ProductOut` response model: `id`, `title`, `price`,
`category`, `in_stock` required; `description`, `image` optional. -/
structure ProductOut where
  id : String
  title : String
  description : Option String := none
  price : ℚ
  category : String
  image : Option String := none
  in_stock : Bool
deriving DecidableEq

/-- `serialize_product(doc)`: builds a `ProductOut` from a stored document.
`doc.get("title")` is `None` when the field is absent, and pydantic rejects
`None` for the required `title` field (modelled as `.error ()`); `price`
defaults to `0`, `category` to `"General"`, `in_stock` to `True`. -/
def serialize_product (doc : StoredDoc) : Except Unit ProductOut :=
  match doc.title with
  | none => .error ()
  | some t =>
      .ok { id := doc.oid
            title := t
            description := doc.description
            price := doc.price.getD 0
            category := doc.category.getD "General"
            image := doc.image
            in_stock := doc.in_stock.getD true }

/-- The list comprehension `[serialize_product(d) for d in docs]`: evaluates
left to right and propagates the first failure. -/
def serialize_all (docs : List StoredDoc) : Except Unit (List ProductOut) :=
  match docs with
  | [] => .ok []
  | d :: ds =>
      match serialize_product d with
      | .error e => .error e
      | .ok o =>
          match serialize_all ds with
          | .error e => .error e
          | .ok os => .ok (o :: os)

/-- `list_products()`: serializes every document of the `product`
collection, in store order. -/
def list_products (docs : List StoredDoc) : Except Unit (List ProductOut) :=
  serialize_all docs

/-- A requested cart item: `product_id: str`, `quantity: int`. -/
structure CartItem where
  product_id : String
  quantity : ℤ
deriving DecidableEq

/-- The checkout request body. -/
structure OrderRequest where
  customer_name : String
  customer_email : String
  customer_address : String
  items : List CartItem
deriving DecidableEq

/-- A line item of the persisted order. `title` is `prod.get("title")` when
the product was found (which may be `none` when the stored document has no
title) and `some "Unknown"` otherwise. -/
structure LineItem where
  product_id : String
  title : Option String
  price : ℚ
  quantity : ℤ
deriving DecidableEq

/-- The `order` document persisted by checkout. -/
structure OrderDoc where
  customer_name : String
  customer_email : String
  customer_address : String
  items : List LineItem
  subtotal : ℚ
  tax : ℚ
  total : ℚ
deriving DecidableEq

/-- How a checkout call fails: `dbNotConfigured` is the explicit
`HTTPException(status_code=500)`; `invalidIdError s` is the uncaught
`bson.errors.InvalidId` raised by `ObjectId(s)` on a malformed id. -/
inductive CheckoutErr where
  | dbNotConfigured : CheckoutErr
  | invalidIdError : String → CheckoutErr
deriving DecidableEq

/-- The HTTP status each failure surfaces as: the explicit
`HTTPException` carries 500, and an uncaught exception is turned into an
HTTP 500 Internal Server Error by the framework. -/
def CheckoutErr.statusCode : CheckoutErr → ℕ
  | .dbNotConfigured => 500
  | .invalidIdError _ => 500

/-- The response body of a successful checkout (`order_id` omitted: it is
store-assigned and opaque). -/
structure CheckoutResponse where
  subtotal : ℚ
  tax : ℚ
  total : ℚ
deriving DecidableEq

/-- `product_ids = [ObjectId(i.product_id) for i in order.items]`: the
identifiers passed to the single `find({"_id": {"$in": product_ids}})`
lookup, in request order. -/
def passedIds (items : List CartItem) : List String :=
  items.map (fun i => i.product_id)

/-- `products = list(db["product"].find({"_id": {"$in": product_ids}}))`:
the stored documents whose id occurs among the passed identifiers, in
store order (each matching document returned once). -/
def foundProducts (db : List StoredDoc) (items : List CartItem) : List StoredDoc :=
  db.filter (fun p => (passedIds items).contains p.oid)

/-- `price_map.get(pid, 0)` where
`price_map = {str(p["_id"]): float(p.get("price", 0)) for p in products}`:
a dict comprehension keeps the last binding of a repeated key. -/
def priceOf (products : List StoredDoc) (pid : String) : ℚ :=
  match products.reverse.find? (fun p => p.oid == pid) with
  | some p => p.price.getD 0
  | none => 0

/-- `next((p for p in products if str(p["_id"]) == pid), None)` then
`prod.get("title") if prod else "Unknown"`. -/
def titleOf (products : List StoredDoc) (pid : String) : Option String :=
  match products.find? (fun p => p.oid == pid) with
  | some p => p.title
  | none => some "Unknown"

/-- `line_total = price * item.quantity`. -/
def lineTotal (price : ℚ) (quantity : ℤ) : ℚ :=
  price * quantity

/-- The dict appended to `line_items` for one requested item. -/
def mkLineItem (products : List StoredDoc) (i : CartItem) : LineItem :=
  { product_id := i.product_id
    title := titleOf products i.product_id
    price := priceOf products i.product_id
    quantity := i.quantity }

/-- The `subtotal += price * item.quantity` accumulation loop over the
requested items, in request order. -/
def subtotalOf (products : List StoredDoc) (items : List CartItem) : ℚ :=
  items.foldl (fun s i => s + lineTotal (priceOf products i.product_id) i.quantity) 0

/-- The `POST /checkout` handler. Returns the response (or the failure)
together with the list of `create_document("order", ...)` calls made. -/
def checkout (dbp : Option (List StoredDoc)) (order : OrderRequest) :
    Except CheckoutErr CheckoutResponse × List OrderDoc :=
  match dbp with
  | none => (.error .dbNotConfigured, [])
  | some db =>
      match order.items.find? (fun i => !(isValidObjectId i.product_id)) with
      | some bad => (.error (.invalidIdError bad.product_id), [])
      | none =>
          let products := foundProducts db order.items
          let line_items := order.items.map (mkLineItem products)
          let subtotal := subtotalOf products order.items
          let tax := round2 (subtotal * 0.08)
          let total := round2 (subtotal + tax)
          let order_doc : OrderDoc :=
            { customer_name := order.customer_name
              customer_email := order.customer_email
              customer_address := order.customer_address
              items := line_items
              subtotal := round2 subtotal
              tax := tax
              total := total }
          (.ok { subtotal := round2 subtotal, tax := tax, total := total }, [order_doc])

/-- One sample product of the seed list (no `_id`: the store assigns it on
insert). -/
structure SampleProduct where
  title : String
  description : String
  price : ℚ
  category : String
  image : String
  in_stock : Bool
deriving DecidableEq

/-- The fixed `sample` list of `seed_products`. -/
def sampleProducts : List SampleProduct :=
  [ { title := "Classic Tee", description := "Soft cotton t-shirt", price := 19.99,
      category := "Apparel",
      image := "https://images.unsplash.com/photo-1520975916090-3105956dac38?w=800",
      in_stock := true },
    { title := "Premium Hoodie", description := "Cozy fleece hoodie", price := 49.0,
      category := "Apparel",
      image := "https://images.unsplash.com/photo-1520975893454-9d06fbe92d08?w=800",
      in_stock := true },
    { title := "Travel Mug", description := "Insulated stainless steel", price := 24.5,
      category := "Accessories",
      image := "https://images.unsplash.com/photo-1509460913899-d6f0e55cf84b?w=800",
      in_stock := true },
    { title := "Leather Journal", description := "Handmade, dotted pages", price := 29.95,
      category := "Stationery",
      image := "https://images.unsplash.com/photo-1519681393784-d120267933ba?w=800",
      in_stock := true } ]

/-- The `POST /seed` handler: 500 when the store handle is absent;
otherwise, if `count_documents({}) > 0`, a no-op acknowledgment with the
current count, else it inserts the sample list and returns its length.
The result is (message, count, documents inserted). -/
def seed_products (dbp : Option (List StoredDoc)) :
    Except Unit (String × ℕ × List SampleProduct) :=
  match dbp with
  | none => .error ()
  | some docs =>
      if 0 < docs.length then .ok ("Products already seeded", docs.length, [])
      else .ok ("Seeded products", sampleProducts.length, sampleProducts)

/-! ## Helper lemmas -/

lemma find?_invalid_eq_none (items : List CartItem)
    (h : ∀ i ∈ items, isValidObjectId i.product_id = true) :
    items.find? (fun i => !(isValidObjectId i.product_id)) = none :=
  List.find?_eq_none.mpr (fun i hi => by simp [h i hi])

/-- On a request whose identifiers all parse, `checkout` succeeds and its
response and single persisted document are the computed totals. -/
lemma checkout_ok (db : List StoredDoc) (order : OrderRequest)
    (h : ∀ i ∈ order.items, isValidObjectId i.product_id = true) :
    checkout (some db) order =
      (.ok { subtotal := round2 (subtotalOf (foundProducts db order.items) order.items)
             tax := round2 (subtotalOf (foundProducts db order.items) order.items * 0.08)
             total := round2 (subtotalOf (foundProducts db order.items) order.items
               + round2 (subtotalOf (foundProducts db order.items) order.items * 0.08)) },
       [{ customer_name := order.customer_name
          customer_email := order.customer_email
          customer_address := order.customer_address
          items := order.items.map (mkLineItem (foundProducts db order.items))
          subtotal := round2 (subtotalOf (foundProducts db order.items) order.items)
          tax := round2 (subtotalOf (foundProducts db order.items) order.items * 0.08)
          total := round2 (subtotalOf (foundProducts db order.items) order.items
            + round2 (subtotalOf (foundProducts db order.items) order.items * 0.08)) }]) := by
  simp [checkout, find?_invalid_eq_none order.items h]

lemma priceOf_eq_zero_of_absent (products : List StoredDoc) (pid : String)
    (h : ∀ p ∈ products, p.oid ≠ pid) : priceOf products pid = 0 := by
  have hn : products.reverse.find? (fun p => p.oid == pid) = none :=
    List.find?_eq_none.mpr (fun p hp => by
      simp [h p (List.mem_reverse.mp hp)])
  simp [priceOf, hn]

lemma titleOf_eq_unknown_of_absent (products : List StoredDoc) (pid : String)
    (h : ∀ p ∈ products, p.oid ≠ pid) : titleOf products pid = some "Unknown" := by
  have hn : products.find? (fun p => p.oid == pid) = none :=
    List.find?_eq_none.mpr (fun p hp => by simp [h p hp])
  simp [titleOf, hn]

/-! ## Claims -/

/-- Claim C1: for every checkout call (on a configured store, with parseable
identifiers), the computed tax equals `round(subtotal * 0.08, 2)` and the
computed total equals `round(subtotal + tax, 2)`, for all subtotal values
including zero; the rounding policy satisfies
`round(19.99 * 0.08, 2) == 1.60`; and these values are both returned to the
client and persisted in the Order document. -/
theorem checkout_tax_and_total (db : List StoredDoc) (order : OrderRequest)
    (h : ∀ i ∈ order.items, isValidObjectId i.product_id = true) :
    ∃ resp doc,
      (checkout (some db) order).1 = .ok resp ∧
      (checkout (some db) order).2 = [doc] ∧
      resp.tax = round2 (subtotalOf (foundProducts db order.items) order.items * 0.08) ∧
      resp.total = round2 (subtotalOf (foundProducts db order.items) order.items + resp.tax) ∧
      doc.subtotal = resp.subtotal ∧ doc.tax = resp.tax ∧ doc.total = resp.total ∧
      round2 ((19.99 : ℚ) * 0.08) = 1.60 := by
  rw [checkout_ok db order h]
  exact ⟨_, _, rfl, rfl, rfl, rfl, rfl, rfl, rfl, by norm_num [round2, roundHalfEven]⟩

/-- Witness for C1 at a concrete request. -/
theorem checkout_tax_and_total_witness :
    (∀ i ∈ (OrderRequest.mk "n" "e" "a" []).items, isValidObjectId i.product_id = true) ∧
    (∃ resp doc,
      (checkout (some []) (OrderRequest.mk "n" "e" "a" [])).1 = .ok resp ∧
      (checkout (some []) (OrderRequest.mk "n" "e" "a" [])).2 = [doc] ∧
      resp.tax = round2 (subtotalOf (foundProducts []
        (OrderRequest.mk "n" "e" "a" []).items) (OrderRequest.mk "n" "e" "a" []).items * 0.08) ∧
      resp.total = round2 (subtotalOf (foundProducts []
        (OrderRequest.mk "n" "e" "a" []).items) (OrderRequest.mk "n" "e" "a" []).items + resp.tax) ∧
      doc.subtotal = resp.subtotal ∧ doc.tax = resp.tax ∧ doc.total = resp.total ∧
      round2 ((19.99 : ℚ) * 0.08) = 1.60) :=
  ⟨by simp, checkout_tax_and_total [] (OrderRequest.mk "n" "e" "a" []) (by simp)⟩

/-- Claim C2: a requested identifier absent from the catalog yields a line
item priced `0` and titled `"Unknown"`, contributing `0` to the subtotal,
and the order is not rejected. -/
theorem checkout_missing_product (db : List StoredDoc) (order : OrderRequest)
    (hvalid : ∀ i ∈ order.items, isValidObjectId i.product_id = true)
    (i : CartItem) (hi : i ∈ order.items)
    (habsent : ∀ p ∈ db, p.oid ≠ i.product_id) :
    (mkLineItem (foundProducts db order.items) i).price = 0 ∧
    (mkLineItem (foundProducts db order.items) i).title = some "Unknown" ∧
    lineTotal (priceOf (foundProducts db order.items) i.product_id) i.quantity = 0 ∧
    (∃ resp doc, (checkout (some db) order).1 = .ok resp ∧
      (checkout (some db) order).2 = [doc] ∧
      mkLineItem (foundProducts db order.items) i ∈ doc.items) := by
  have habs : ∀ p ∈ foundProducts db order.items, p.oid ≠ i.product_id :=
    fun p hp => habsent p (List.mem_of_mem_filter hp)
  have hp0 : priceOf (foundProducts db order.items) i.product_id = 0 :=
    priceOf_eq_zero_of_absent _ _ habs
  refine ⟨by simp [mkLineItem, hp0], by simp [mkLineItem, titleOf_eq_unknown_of_absent _ _ habs],
    by simp [lineTotal, hp0], ?_⟩
  rw [checkout_ok db order hvalid]
  exact ⟨_, _, rfl, rfl, List.mem_map_of_mem _ hi⟩

/-- Witness for C2: one requested item, empty catalog. -/
theorem checkout_missing_product_witness :
    (∀ i ∈ (OrderRequest.mk "n" "e" "a" [CartItem.mk "0123456789abcdef01234567" 2]).items,
      isValidObjectId i.product_id = true) ∧
    CartItem.mk "0123456789abcdef01234567" 2
      ∈ (OrderRequest.mk "n" "e" "a" [CartItem.mk "0123456789abcdef01234567" 2]).items ∧
    (∀ p ∈ ([] : List StoredDoc), p.oid ≠ (CartItem.mk "0123456789abcdef01234567" 2).product_id) ∧
    ((mkLineItem (foundProducts []
        (OrderRequest.mk "n" "e" "a" [CartItem.mk "0123456789abcdef01234567" 2]).items)
        (CartItem.mk "0123456789abcdef01234567" 2)).price = 0 ∧
      (mkLineItem (foundProducts []
        (OrderRequest.mk "n" "e" "a" [CartItem.mk "0123456789abcdef01234567" 2]).items)
        (CartItem.mk "0123456789abcdef01234567" 2)).title = some "Unknown" ∧
      lineTotal (priceOf (foundProducts []
        (OrderRequest.mk "n" "e" "a" [CartItem.mk "0123456789abcdef01234567" 2]).items)
        (CartItem.mk "0123456789abcdef01234567" 2).product_id)
        (CartItem.mk "0123456789abcdef01234567" 2).quantity = 0 ∧
      (∃ resp doc,
        (checkout (some []) (OrderRequest.mk "n" "e" "a"
          [CartItem.mk "0123456789abcdef01234567" 2])).1 = .ok resp ∧
        (checkout (some []) (OrderRequest.mk "n" "e" "a"
          [CartItem.mk "0123456789abcdef01234567" 2])).2 = [doc] ∧
        mkLineItem (foundProducts []
          (OrderRequest.mk "n" "e" "a" [CartItem.mk "0123456789abcdef01234567" 2]).items)
          (CartItem.mk "0123456789abcdef01234567" 2) ∈ doc.items)) :=
  ⟨by decide, by simp, by simp,
    checkout_missing_product [] _ (by decide) _ (by simp) (by simp)⟩

/-- Claim C3: exactly one Order document is created per successful checkout
call, written only after the totals computation completes (the written
document carries the computed totals); on failure no Order document is
created; an unconfigured store fails with the explicit HTTP 500. -/
theorem checkout_single_create (dbp : Option (List StoredDoc)) (order : OrderRequest) :
    (∀ resp, (checkout dbp order).1 = .ok resp →
      ∃ doc, (checkout dbp order).2 = [doc] ∧ doc.subtotal = resp.subtotal ∧
        doc.tax = resp.tax ∧ doc.total = resp.total) ∧
    (∀ e, (checkout dbp order).1 = .error e → (checkout dbp order).2 = []) ∧
    checkout none order = (.error .dbNotConfigured, []) ∧
    CheckoutErr.statusCode .dbNotConfigured = 500 := by
  refine ⟨?_, ?_, rfl, rfl⟩
  · intro resp hresp
    match dbp with
    | none => simp [checkout] at hresp
    | some db =>
      cases hfind : order.items.find? (fun i => !(isValidObjectId i.product_id)) with
      | some bad => simp [checkout, hfind] at hresp
      | none =>
        have hvalid : ∀ i ∈ order.items, isValidObjectId i.product_id = true := by
          intro i hi
          have := List.find?_eq_none.mp hfind i hi
          simpa using this
        rw [checkout_ok db order hvalid] at hresp ⊢
        simp only [Except.ok.injEq] at hresp
        exact ⟨_, rfl, by rw [← hresp], by rw [← hresp], by rw [← hresp]⟩
  · intro e he
    match dbp with
    | none => rfl
    | some db =>
      cases hfind : order.items.find? (fun i => !(isValidObjectId i.product_id)) with
      | some bad => simp [checkout, hfind]
      | none =>
        have hvalid : ∀ i ∈ order.items, isValidObjectId i.product_id = true := by
          intro i hi
          have := List.find?_eq_none.mp hfind i hi
          simpa using this
        rw [checkout_ok db order hvalid] at he
        simp at he

/-- Witness for C3 at concrete calls. -/
theorem checkout_single_create_witness :
    ((checkout (some []) (OrderRequest.mk "n" "e" "a" [])).2).length = 1 ∧
    (checkout none (OrderRequest.mk "n" "e" "a" [])).2 = [] := by
  have hok := checkout_ok [] (OrderRequest.mk "n" "e" "a" []) (by simp)
  obtain ⟨doc, hdoc, -, -, -⟩ :=
    (checkout_single_create (some []) (OrderRequest.mk "n" "e" "a" [])).1 _ (by rw [hok])
  exact ⟨by rw [hdoc]; rfl,
    (checkout_single_create none (OrderRequest.mk "n" "e" "a" [])).2.1 _ rfl⟩

/-- Claim C4 is refuted by the code: a malformed product identifier makes
`ObjectId` raise `bson.errors.InvalidId`, which the handler does not catch,
so the request fails as an HTTP 500 server-side failure, not as a
client-input error. This theorem evaluates checkout at such an input. -/
theorem checkout_malformed_id_is_server_error :
    (checkout (some []) (OrderRequest.mk "n" "e" "a" [CartItem.mk "not-an-objectid" 1])).1
        = .error (.invalidIdError "not-an-objectid") ∧
    (CheckoutErr.invalidIdError "not-an-objectid").statusCode = 500 ∧
    ¬ (400 ≤ (CheckoutErr.invalidIdError "not-an-objectid").statusCode ∧
        (CheckoutErr.invalidIdError "not-an-objectid").statusCode < 500) := by
  exact ⟨rfl, rfl, by decide⟩

lemma contains_eq_of_perm {l l' : List String} (h : l.Perm l') (x : String) :
    l.contains x = l'.contains x := by
  rw [Bool.eq_iff_iff]
  simp only [List.contains_iff_exists_mem_beq]
  constructor
  · rintro ⟨a, ha, hx⟩; exact ⟨a, h.mem_iff.mp ha, hx⟩
  · rintro ⟨a, ha, hx⟩; exact ⟨a, h.mem_iff.mpr ha, hx⟩

/-- Permuting the requested items does not change which stored documents the
bulk lookup returns. -/
lemma foundProducts_perm (db : List StoredDoc) {items items' : List CartItem}
    (h : items.Perm items') : foundProducts db items = foundProducts db items' :=
  List.filter_congr (fun p _ => contains_eq_of_perm (h.map _) p.oid)

lemma foldl_add_eq (f : CartItem → ℚ) (l : List CartItem) (a : ℚ) :
    l.foldl (fun s i => s + f i) a = a + (l.map f).sum := by
  induction l generalizing a with
  | nil => simp
  | cons x xs ih => simp [ih, add_assoc]

/-- The accumulation loop computes the sum of the line totals. -/
lemma subtotalOf_eq_sum (products : List StoredDoc) (items : List CartItem) :
    subtotalOf products items
      = (items.map (fun i => lineTotal (priceOf products i.product_id) i.quantity)).sum := by
  simpa using foldl_add_eq
    (fun i => lineTotal (priceOf products i.product_id) i.quantity) items 0

/-- Permuting the requested items leaves the subtotal unchanged. -/
lemma subtotalOf_perm (db : List StoredDoc) {items items' : List CartItem}
    (h : items.Perm items') :
    subtotalOf (foundProducts db items) items
      = subtotalOf (foundProducts db items') items' := by
  rw [subtotalOf_eq_sum, subtotalOf_eq_sum, ← foundProducts_perm db h]
  exact (h.map _).sum_eq

/-- Claim C5: each line total equals `price * quantity`; the subtotal is the
sum of the line totals over the requested items in request order; permuting
the items leaves the response (subtotal, hence tax and total) unchanged;
and the persisted line-item sequence follows the request's item order. -/
theorem checkout_line_totals_and_order (db : List StoredDoc)
    (items items' : List CartItem) (hperm : items.Perm items')
    (hvalid : ∀ i ∈ items, isValidObjectId i.product_id = true) :
    (∀ p : ℚ, ∀ q : ℤ, lineTotal p q = p * q) ∧
    subtotalOf (foundProducts db items) items
      = (items.map (fun i =>
          lineTotal (priceOf (foundProducts db items) i.product_id) i.quantity)).sum ∧
    subtotalOf (foundProducts db items) items
      = subtotalOf (foundProducts db items') items' ∧
    ∀ n e a : String,
      (checkout (some db) (OrderRequest.mk n e a items)).1
        = (checkout (some db) (OrderRequest.mk n e a items')).1 ∧
      ∃ doc, (checkout (some db) (OrderRequest.mk n e a items)).2 = [doc] ∧
        doc.items = items.map (mkLineItem (foundProducts db items)) := by
  have hvalid' : ∀ i ∈ items', isValidObjectId i.product_id = true :=
    fun i hi => hvalid i (hperm.mem_iff.mpr hi)
  refine ⟨fun p q => rfl, subtotalOf_eq_sum _ _, subtotalOf_perm db hperm, fun n e a => ?_⟩
  constructor
  · rw [checkout_ok db _ hvalid, checkout_ok db _ hvalid']
    rw [subtotalOf_perm db hperm]
  · rw [checkout_ok db _ hvalid]
    exact ⟨_, rfl, rfl⟩

/-- Witness for C5 at a concrete request (identity permutation). -/
theorem checkout_line_totals_and_order_witness :
    ([CartItem.mk "0123456789abcdef01234567" 2] : List CartItem).Perm
      [CartItem.mk "0123456789abcdef01234567" 2] ∧
    (∀ i ∈ ([CartItem.mk "0123456789abcdef01234567" 2] : List CartItem),
      isValidObjectId i.product_id = true) ∧
    lineTotal 3 4 = 3 * 4 ∧
    subtotalOf (foundProducts [] [CartItem.mk "0123456789abcdef01234567" 2])
        [CartItem.mk "0123456789abcdef01234567" 2]
      = ([CartItem.mk "0123456789abcdef01234567" 2].map (fun i =>
          lineTotal (priceOf (foundProducts [] [CartItem.mk "0123456789abcdef01234567" 2])
            i.product_id) i.quantity)).sum ∧
    (∃ doc,
      (checkout (some []) (OrderRequest.mk "n" "e" "a"
        [CartItem.mk "0123456789abcdef01234567" 2])).2 = [doc] ∧
      doc.items = [CartItem.mk "0123456789abcdef01234567" 2].map
        (mkLineItem (foundProducts [] [CartItem.mk "0123456789abcdef01234567" 2]))) := by
  refine ⟨List.Perm.refl _, by decide, ?_, ?_, ?_⟩
  · exact (checkout_line_totals_and_order [] [CartItem.mk "0123456789abcdef01234567" 2]
      [CartItem.mk "0123456789abcdef01234567" 2] (List.Perm.refl _) (by decide)).1 3 4
  · exact (checkout_line_totals_and_order [] [CartItem.mk "0123456789abcdef01234567" 2]
      [CartItem.mk "0123456789abcdef01234567" 2] (List.Perm.refl _) (by decide)).2.1
  · exact ((checkout_line_totals_and_order [] [CartItem.mk "0123456789abcdef01234567" 2]
      [CartItem.mk "0123456789abcdef01234567" 2] (List.Perm.refl _)
      (by decide)).2.2.2 "n" "e" "a").2

/-- Claim C6: checkout with an empty items sequence yields
`subtotal = 0, tax = 0, total = 0` and still creates an Order document. -/
theorem checkout_empty_items (db : List StoredDoc) (n e a : String) :
    (checkout (some db) (OrderRequest.mk n e a [])).1
      = .ok { subtotal := 0, tax := 0, total := 0 } ∧
    (checkout (some db) (OrderRequest.mk n e a [])).2
      = [{ customer_name := n, customer_email := e, customer_address := a,
           items := [], subtotal := 0, tax := 0, total := 0 }] := by
  rw [checkout_ok db _ (by simp)]
  norm_num [subtotalOf, round2, roundHalfEven]

/-- Claim C7: seeding an empty product collection inserts exactly the 4
sample products and returns count 4; seeding a non-empty collection inserts
nothing and returns the current count; in particular a second call after
seeding (collection size 4) returns count 4 with zero inserts. -/
theorem seed_products_behavior (db : List StoredDoc) :
    (db.length = 0 →
      seed_products (some db) = .ok ("Seeded products", 4, sampleProducts) ∧
      sampleProducts.length = 4) ∧
    (0 < db.length →
      seed_products (some db) = .ok ("Products already seeded", db.length, [])) ∧
    (db.length = 4 →
      seed_products (some db) = .ok ("Products already seeded", 4, [])) := by
  refine ⟨fun h => ⟨by simp [seed_products, h]; rfl, rfl⟩,
    fun h => by simp [seed_products, h],
    fun h => by simp [seed_products, h]⟩

/-- Witness for C7: seed an empty store, then a store holding 4 documents. -/
theorem seed_products_behavior_witness :
    seed_products (some []) = .ok ("Seeded products", 4, sampleProducts) ∧
    seed_products (some [StoredDoc.mk "a" none none none none none none,
      StoredDoc.mk "b" none none none none none none,
      StoredDoc.mk "c" none none none none none none,
      StoredDoc.mk "d" none none none none none none])
      = .ok ("Products already seeded", 4, []) :=
  ⟨((seed_products_behavior []).1 rfl).1,
    (seed_products_behavior [StoredDoc.mk "a" none none none none none none,
      StoredDoc.mk "b" none none none none none none,
      StoredDoc.mk "c" none none none none none none,
      StoredDoc.mk "d" none none none none none none]).2.2 rfl⟩

/-- Serialization of a list of documents that all carry a title succeeds,
and each output is the serialization of the corresponding input. -/
lemma serialize_all_ok (docs : List StoredDoc) (h : ∀ d ∈ docs, d.title.isSome) :
    ∃ outs, serialize_all docs = .ok outs ∧
      List.Forall₂ (fun d o => serialize_product d = .ok o ∧
        (d.category = none → o.category = "General") ∧
        (d.in_stock = none → o.in_stock = true) ∧
        o.description = d.description ∧ o.image = d.image) docs outs := by
  induction docs with
  | nil => exact ⟨[], rfl, .nil⟩
  | cons d ds ih =>
    obtain ⟨t, ht⟩ := Option.isSome_iff_exists.mp (h d (List.mem_cons_self d ds))
    obtain ⟨outs, houts, hall⟩ := ih (fun x hx => h x (List.mem_cons_of_mem d hx))
    have hod : serialize_product d =
        .ok { id := d.oid, title := t, description := d.description,
              price := d.price.getD 0, category := d.category.getD "General",
              image := d.image, in_stock := d.in_stock.getD true } := by
      simp [serialize_product, ht]
    refine ⟨_ :: outs, ?_, .cons ⟨hod, ?_, ?_, rfl, rfl⟩ hall⟩
    · simp [serialize_all, hod, houts]
    · intro hc; simp [hc]
    · intro hs; simp [hs]

/-- Claim C8: `list_products` maps every stored document to the public
representation, substituting `category = "General"` and `in_stock = true`
when the stored document omits them, and never fails because of a missing
optional field (description, image, category, in_stock). -/
theorem list_products_defaults (docs : List StoredDoc)
    (h : ∀ d ∈ docs, d.title.isSome) :
    ∃ outs, list_products docs = .ok outs ∧
      List.Forall₂ (fun d o => serialize_product d = .ok o ∧
        (d.category = none → o.category = "General") ∧
        (d.in_stock = none → o.in_stock = true) ∧
        o.description = d.description ∧ o.image = d.image) docs outs :=
  serialize_all_ok docs h

/-- Witness for C8: one document with every optional field absent. -/
theorem list_products_defaults_witness :
    (∀ d ∈ [StoredDoc.mk "x" (some "T") none none none none none], d.title.isSome) ∧
    (∃ outs, list_products [StoredDoc.mk "x" (some "T") none none none none none]
        = .ok outs ∧
      List.Forall₂ (fun d o => serialize_product d = .ok o ∧
        (d.category = none → o.category = "General") ∧
        (d.in_stock = none → o.in_stock = true) ∧
        o.description = d.description ∧ o.image = d.image)
        [StoredDoc.mk "x" (some "T") none none none none none] outs) :=
  ⟨by simp, list_products_defaults [StoredDoc.mk "x" (some "T") none none none none none]
    (by simp)⟩

/-- If serializing the whole collection succeeded, every document
serialized successfully. -/
lemma serialize_all_ok_forall (docs : List StoredDoc) (outs : List ProductOut)
    (h : serialize_all docs = .ok outs) :
    ∀ d ∈ docs, ∃ o, serialize_product d = .ok o := by
  induction docs generalizing outs with
  | nil => simp
  | cons d ds ih =>
    intro x hx
    cases hd : serialize_product d with
    | error e => rw [serialize_all, hd] at h; cases h
    | ok o =>
      cases hds : serialize_all ds with
      | error e => rw [serialize_all, hd, hds] at h; cases h
      | ok os =>
        cases hx with
        | head => exact ⟨o, hd⟩
        | tail _ hmem => exact ih os hds x hmem

/-- Claim C10: `serialize_product` is not total: a stored document lacking a
title makes serialization fail (pydantic rejects `None` for the required
`title`), so the entire `list_products` call fails rather than returning
the remaining products. -/
theorem list_products_missing_title_fails (docs : List StoredDoc) (d : StoredDoc)
    (hd : d ∈ docs) (h : d.title = none) :
    serialize_product d = .error () ∧ ∀ outs, list_products docs ≠ .ok outs := by
  have hfail : serialize_product d = .error () := by simp [serialize_product, h]
  refine ⟨hfail, fun outs hok => ?_⟩
  obtain ⟨o, ho⟩ := serialize_all_ok_forall docs outs hok d hd
  rw [hfail] at ho
  cases ho

/-- Witness for C10: a one-document collection whose document has no title. -/
theorem list_products_missing_title_fails_witness :
    StoredDoc.mk "x" none none none none none none
      ∈ [StoredDoc.mk "x" none none none none none none] ∧
    (StoredDoc.mk "x" none none none none none none).title = none ∧
    serialize_product (StoredDoc.mk "x" none none none none none none) = .error () ∧
    list_products [StoredDoc.mk "x" none none none none none none] ≠ .ok [] := by
  refine ⟨List.mem_singleton.mpr rfl, rfl, ?_, ?_⟩
  · exact (list_products_missing_title_fails _ _ (List.mem_singleton.mpr rfl) rfl).1
  · exact (list_products_missing_title_fails _ _ (List.mem_singleton.mpr rfl) rfl).2 []

/-- Claim C9 as stated is refuted: the identifier list passed to the bulk
lookup is built by mapping over `order.items` without deduplication, so for
a request naming the same product twice the passed collection is not the
distinct set of referenced identifiers. -/
theorem passedIds_not_deduplicated :
    ¬ (passedIds [CartItem.mk "0123456789abcdef01234567" 1,
        CartItem.mk "0123456789abcdef01234567" 1]
      = ([CartItem.mk "0123456789abcdef01234567" 1,
          CartItem.mk "0123456789abcdef01234567" 1].map
            (fun i => i.product_id)).dedup) := by
  decide

/-- Claim C9 amended: the identifiers passed to the single bulk lookup are
exactly the product identifiers of `request.items` in request order,
possibly with duplicates; as a set they equal the distinct set of
identifiers referenced by the items; and the lookup consumes this one list
(the documents resolved are those whose id it contains). -/
theorem passedIds_as_set_distinct (db : List StoredDoc) (items : List CartItem) :
    passedIds items = items.map (fun i => i.product_id) ∧
    (passedIds items).toFinset = ((items.map (fun i => i.product_id)).dedup).toFinset ∧
    foundProducts db items = db.filter (fun p => (passedIds items).contains p.oid) := by
  refine ⟨rfl, ?_, rfl⟩
  ext a
  simp [passedIds, List.mem_toFinset, List.mem_dedup]

end Shopping
